import Mathlib

/-
  Verification of the heuristic communication-skills analyzer of the
  Study_Buddy backend (backend/services/transcription_service.py, with the
  legacy scorer from backend/services/transcription_service_broken.py).

  The Python code is shallowly embedded: Python `float` arithmetic is
  modelled by exact rationals (ℚ), Python `int` scores by ℤ, counts by ℕ,
  Python strings by Lean `String` processed through their character lists.
  Calls to `random.randint` are modelled by explicit integer parameters,
  with the bounds of the draw appearing as hypotheses where a claim needs
  them.  Python exceptions at the `evaluate_text_only` boundary are
  modelled by parameterising the evaluator over an `Except`-valued
  analysis function.
-/

namespace StudyBuddy

/- Core marks the rational-number operations irreducible, which blocks
kernel evaluation of concrete scores by `decide`; make them
semireducible for this development. -/
unseal Rat.mul Rat.add Rat.sub Rat.inv

/-! ## Character-list utilities mirroring the Python string operations -/

/-- Characters of a string, lowercased; mirrors Python `s.lower()`
(ASCII-faithful, which covers every lexical marker the scorer uses). -/
def lowerData (s : String) : List Char := s.data.map Char.toLower

/-- Auxiliary for `wordsOf`: split on whitespace runs, dropping empty
segments, accumulating the current word in reverse. -/
def wordsOfAux : List Char → List Char → List (List Char)
  | [], cur => if cur = [] then [] else [cur.reverse]
  | c :: cs, cur =>
    if c.isWhitespace then
      if cur = [] then wordsOfAux cs [] else cur.reverse :: wordsOfAux cs []
    else wordsOfAux cs (c :: cur)

/-- Python `s.split()` (no argument): split on whitespace runs, no empty
tokens. -/
def wordsOf (s : List Char) : List (List Char) := wordsOfAux s []

/-- Is the character one of the sentence terminators of the regex
`[.!?]+` used by the analyzer? -/
def isTerminatorChar (c : Char) : Bool := c = '.' || c = '!' || c = '?'

/-- Auxiliary for `sentSplit`: the `Bool` records whether the previous
character was a terminator (so that a run `[.!?]+` forms one split). -/
def sentSplitAux : List Char → List Char → Bool → List (List Char)
  | [], cur, _ => [cur.reverse]
  | c :: cs, cur, lastT =>
    if isTerminatorChar c then
      if lastT then sentSplitAux cs cur true
      else cur.reverse :: sentSplitAux cs [] true
    else sentSplitAux cs (c :: cur) false

/-- Python `re.split(r'[.!?]+', s)`: segments between maximal runs of
sentence terminators, keeping empty segments (so the result always has at
least one element). -/
def sentSplit (s : List Char) : List (List Char) := sentSplitAux s [] false

/-- Does `p` occur at the head of `t`? -/
def leadsWith : List Char → List Char → Bool
  | [], _ => true
  | _ :: _, [] => false
  | p :: ps, c :: cs => p = c && leadsWith ps cs

/-- Auxiliary for `countOcc`: scan the text one character at a time;
after a match, `skip` characters are still part of the matched
occurrence and are passed over before the next match may start. -/
def countOccAux (p : List Char) : List Char → ℕ → ℕ
  | [], _ => 0
  | _ :: cs, skip + 1 => countOccAux p cs skip
  | c :: cs, 0 =>
    if leadsWith p (c :: cs) then 1 + countOccAux p cs (p.length - 1)
    else countOccAux p cs 0

/-- Python `t.count(p)` for a nonempty pattern `p`: number of
non-overlapping occurrences, scanning left to right; after a match the
scan resumes past the matched occurrence.  (The analyzer only ever
counts nonempty patterns.) -/
def countOcc (p t : List Char) : ℕ := countOccAux p t 0

/-- Python `p in t` for substrings. -/
def hasSub : List Char → List Char → Bool
  | p, [] => leadsWith p []
  | p, c :: cs => leadsWith p (c :: cs) || hasSub p cs

/-- Python `s.strip()` on a character list: drop whitespace from both
ends. -/
def pyStripWS (s : List Char) : List Char :=
  ((s.dropWhile Char.isWhitespace).reverse.dropWhile Char.isWhitespace).reverse

/-- The punctuation characters of the analyzer's `strip('.,!?;:"')`. -/
def punctChars : List Char := ['.', ',', '!', '?', ';', ':', '"']

/-- Python `w.strip('.,!?;:"')`: drop those characters from both ends. -/
def pyStripPunct (s : List Char) : List Char :=
  ((s.dropWhile (punctChars.contains ·)).reverse.dropWhile (punctChars.contains ·)).reverse

/-- Python `int(q)` for a rational: truncation toward zero. -/
def pyTrunc (q : ℚ) : ℤ := if 0 ≤ q then q.floor else -(-q).floor

/-- Round half to even, Python's `round` tie rule. -/
def pyRoundHalfEven (q : ℚ) : ℤ :=
  if q - q.floor < 1/2 then q.floor
  else if q - q.floor > 1/2 then q.floor + 1
  else if q.floor % 2 = 0 then q.floor else q.floor + 1

/-- Python `round(q, n)` modelled on exact rationals. -/
def pyRoundTo (q : ℚ) (n : ℕ) : ℚ :=
  ((pyRoundHalfEven (q * 10 ^ n) : ℚ)) / 10 ^ n

/-- Python `"sep".join(xs)`. -/
def joinWith (sep : String) : List String → String
  | [] => ""
  | [x] => x
  | x :: y :: xs => x ++ sep ++ joinWith sep (y :: xs)

/-! ## Data model -/

/-- The fields of the `speech_analysis` dict produced by
`TranscriptionService._analyze_speech_patterns`. -/
structure SpeechAnalysis where
  filler_word_count : ℕ
  complexity_score : ℚ
  flow_score : ℚ
  quality_rating : ℚ
  has_questions : Bool
  has_exclamations : Bool
  formal_language_count : ℕ
  deriving DecidableEq, Repr

/-- The `detailed_analysis` dict of an evaluation result. -/
structure DetailedAnalysis where
  word_count : ℕ
  sentence_count : ℕ
  avg_words_per_sentence : ℚ
  vocabulary_diversity : ℚ
  speech_quality : ℚ
  filler_words : ℕ
  complexity_score : ℚ
  transcription_length : ℕ
  deriving DecidableEq, Repr

/-- The dict returned by
`TranscriptionService._analyze_communication_skills`. -/
structure AnalysisResult where
  clarity : ℤ
  confidence : ℤ
  articulation : ℤ
  feedback : String
  suggestions : String
  detailed : DetailedAnalysis
  deriving DecidableEq, Repr

/-- The `analysis` field of a `TranscriptionEvaluationOutput`: either the
detailed analysis dict or an error marker dict such as
`{"error": "Empty transcription"}`. -/
inductive AnalysisInfo where
  | detailed : DetailedAnalysis → AnalysisInfo
  | errorInfo : String → AnalysisInfo
  deriving DecidableEq, Repr

/-- The pydantic model `TranscriptionEvaluationOutput`. -/
structure TranscriptionEvaluationOutput where
  transcription : String
  clarity : ℤ
  confidence : ℤ
  articulation : ℤ
  feedback : String
  suggestions : String
  analysis : AnalysisInfo
  deriving DecidableEq, Repr

/-! ## Lexical feature extraction (`_analyze_speech_patterns` and the
inline analysis of `_analyze_communication_skills`) -/

/-- The filler-word list of `_analyze_speech_patterns`. -/
def fillerWords : List String :=
  ["um", "uh", "like", "you know", "actually", "basically", "literally",
   "sort of", "kind of"]

/-- `sum(transcription.lower().count(filler) for filler in filler_words)`. -/
def fillerWordCount (transcription : String) : ℕ :=
  (fillerWords.map (fun f => countOcc f.data (lowerData transcription))).sum

/-- `[s.strip() for s in re.split(r'[.!?]+', transcription) if s.strip()]`. -/
def sentencesOf (transcription : String) : List (List Char) :=
  ((sentSplit transcription.data).map pyStripWS).filter (fun s => s ≠ [])

/-- `complex_sentences / len(sentences) if sentences else 0` where a
sentence is complex when it has more than 15 words. -/
def complexityScore (transcription : String) : ℚ :=
  let sentences := sentencesOf transcription
  if sentences.length = 0 then 0
  else ((sentences.filter (fun s => 15 < (wordsOf s).length)).length : ℚ) / sentences.length

/-- `1 - (short_sentences / len(sentences)) if sentences else 0` where a
sentence is short when it has fewer than 5 words. -/
def flowScore (transcription : String) : ℚ :=
  let sentences := sentencesOf transcription
  if sentences.length = 0 then 0
  else 1 - ((sentences.filter (fun s => (wordsOf s).length < 5)).length : ℚ) / sentences.length

/-- The mean of the four `quality_factors` of `_analyze_speech_patterns`. -/
def qualityRating (transcription : String) (word_count : ℕ) : ℚ :=
  ((1 - min ((fillerWordCount transcription : ℚ) / 10) (1/2))
    + min (complexityScore transcription) 1
    + flowScore transcription
    + min ((word_count : ℚ) / 50) 1) / 4

/-- The formal-language markers of `_analyze_speech_patterns`. -/
def formalWords : List (List Char) :=
  (["therefore", "however", "moreover", "furthermore", "consequently"].map String.data)

/-- `sum(1 for word in words if word.lower() in [...])`. -/
def formalLanguageCount (words : List (List Char)) : ℕ :=
  (words.filter (fun w => formalWords.contains (w.map Char.toLower))).length

/-- `TranscriptionService._analyze_speech_patterns`. -/
def analyzeSpeechPatterns (transcription : String) (words : List (List Char))
    (word_count : ℕ) : SpeechAnalysis :=
  { filler_word_count := fillerWordCount transcription
    complexity_score := complexityScore transcription
    flow_score := flowScore transcription
    quality_rating := qualityRating transcription word_count
    has_questions := transcription.data.contains '?'
    has_exclamations := transcription.data.contains '!'
    formal_language_count := formalLanguageCount words }

/-- `set(word.lower().strip('.,!?;:"') for word in words)` then
`len(unique_words) / len(words) if words else 0`. -/
def vocabularyDiversity (words : List (List Char)) : ℚ :=
  if words = [] then 0
  else ((words.map (fun w => pyStripPunct (w.map Char.toLower))).dedup.length : ℚ) / words.length

/-! ## Score calculators -/

/-- How many of the marker strings occur (as substrings) in the given
lowercased text; each present marker contributes once, mirroring
`sum(k for w in markers if w in transcription.lower())`. -/
def presenceCount (markers : List String) (lowerT : List Char) : ℕ :=
  (markers.filter (fun w => hasSub w.data lowerT)).length

def clarityIndicators : List String :=
  ["clear", "understand", "explain", "simple", "direct", "obvious", "apparent"]

/-- `TranscriptionService._calculate_enhanced_clarity_score`. -/
def calculateEnhancedClarityScore (transcription : String) (word_count : ℕ)
    (avg_words_per_sentence : ℚ) (sa : SpeechAnalysis) : ℤ :=
  let base1 : ℤ := 60
    + (if 8 ≤ avg_words_per_sentence ∧ avg_words_per_sentence ≤ 18 then 12
       else if 5 ≤ avg_words_per_sentence ∧ avg_words_per_sentence ≤ 25 then 6 else 0)
    + (if 25 ≤ word_count then 10 else if 15 ≤ word_count then 5 else 0)
  let clarity_bonus : ℤ := 4 * presenceCount clarityIndicators (lowerData transcription)
  let filler_penalty : ℤ := min 15 ((sa.filler_word_count : ℤ) * 2)
  let quality_bonus : ℤ := pyTrunc (sa.quality_rating * 10)
  min 100 (base1 + clarity_bonus - filler_penalty + quality_bonus)

def strongConfidenceWords : List String :=
  ["believe", "confident", "excited", "passionate", "sure", "certain",
   "definitely", "absolutely"]

def moderateConfidenceWords : List String :=
  ["think", "feel", "hope", "suggest", "recommend", "consider"]

def leadershipWords : List String :=
  ["lead", "guide", "direct", "manage", "organize", "plan", "decide"]

def uncertaintyWords : List String :=
  ["maybe", "perhaps", "possibly", "might", "could", "should", "would"]

/-- `TranscriptionService._calculate_enhanced_confidence_score`. -/
def calculateEnhancedConfidenceScore (transcription : String)
    (sa : SpeechAnalysis) : ℤ :=
  let lowerT := lowerData transcription
  let strong_bonus : ℤ := 6 * presenceCount strongConfidenceWords lowerT
  let moderate_bonus : ℤ := 3 * presenceCount moderateConfidenceWords lowerT
  let leadership_bonus : ℤ := 5 * presenceCount leadershipWords lowerT
  let uncertainty_penalty : ℤ := 3 * presenceCount uncertaintyWords lowerT
  let filler_penalty : ℤ := min 20 ((sa.filler_word_count : ℤ) * 3)
  let formal_bonus : ℤ := min 10 ((sa.formal_language_count : ℤ) * 3)
  let total := 55 + strong_bonus + moderate_bonus + leadership_bonus
    - uncertainty_penalty - filler_penalty + formal_bonus
  min 100 (max 30 total)

def articulationWords : List String :=
  ["articulate", "express", "communicate", "convey", "describe", "explain",
   "elaborate", "detail"]

/-- `TranscriptionService._calculate_enhanced_articulation_score`. -/
def calculateEnhancedArticulationScore (transcription : String) (word_count : ℕ)
    (vocabulary_diversity : ℚ) (sa : SpeechAnalysis) : ℤ :=
  let base1 : ℤ := 65
    + (if 35 ≤ word_count then 12 else if 25 ≤ word_count then 8
       else if 15 ≤ word_count then 4 else 0)
    + (if 4/5 < vocabulary_diversity then 15 else if 3/5 < vocabulary_diversity then 10
       else if 2/5 < vocabulary_diversity then 5 else 0)
  let articulation_bonus : ℤ := 4 * presenceCount articulationWords (lowerData transcription)
  let complexity_bonus : ℤ := pyTrunc (sa.complexity_score * 15)
  let flow_bonus : ℤ := pyTrunc (sa.flow_score * 10)
  let base2 := if sa.flow_score < 3/10 then base1 - 10 else base1
  let engagement_bonus : ℤ :=
    (if sa.has_questions then 5 else 0) + (if sa.has_exclamations then 3 else 0)
  let total := base2 + articulation_bonus + complexity_bonus + flow_bonus + engagement_bonus
  min 100 (max 35 total)

/-! ## Legacy confidence scorer
(`transcription_service_broken.py`) -/

/-- The positive keyword list of the legacy
`_analyze_communication_skills`, used to compute `keyword_count`. -/
def positiveKeywords : List String :=
  ["effective", "clear", "good", "excellent", "confident", "passionate",
   "important", "essential", "success", "improve", "better", "understand"]

/-- `keyword_count` of the legacy analyzer: how many positive keywords
occur in the lowercased transcript. -/
def keywordCount (transcription : String) : ℕ :=
  presenceCount positiveKeywords (lowerData transcription)

def legacyConfidenceIndicators : List String :=
  ["believe", "confident", "excited", "passionate", "sure", "certain"]

def legacyHesitationWords : List String :=
  ["um", "uh", "like", "you know", "actually", "basically"]

/-- The legacy `TranscriptionService._calculate_confidence_score`. -/
def calculateConfidenceScoreLegacy (transcription : String)
    (keyword_count : ℕ) : ℤ :=
  let base1 : ℤ := 65 + min 20 ((keyword_count : ℤ) * 3)
  let confidence_bonus : ℤ := 5 * presenceCount legacyConfidenceIndicators (lowerData transcription)
  let hesitation_penalty : ℤ := 3 * presenceCount legacyHesitationWords (lowerData transcription)
  max 0 (min 100 (base1 + confidence_bonus - hesitation_penalty))

/-! ## Variation injector and fallback generator -/

/-- `variation_range = min(15, max(5, word_count // 10))`. -/
def variationRange (word_count : ℕ) : ℤ := min 15 (max 5 ((word_count : ℤ) / 10))

/-- `TranscriptionService._add_natural_variation`; the draw
`random.randint(-variation_range, variation_range)` is the explicit
`variation` argument. -/
def addNaturalVariation (base_score : ℤ) (word_count : ℕ) (variation : ℤ) : ℤ :=
  min 100 (max 40 (base_score + variation))

/-- The six draws consumed by `_generate_random_evaluation`: three bases
from `random.randint(65, 85)` and three jitters from
`random.randint(-10, 10)`. -/
structure FallbackDraws where
  b1 : ℤ
  b2 : ℤ
  b3 : ℤ
  j1 : ℤ
  j2 : ℤ
  j3 : ℤ
  deriving DecidableEq, Repr

/-- `TranscriptionService._generate_random_evaluation`. -/
def generateRandomEvaluation (reason : String) (d : FallbackDraws) : AnalysisResult :=
  let s1 := min 100 (max 40 (d.b1 + d.j1))
  let s2 := min 100 (max 40 (d.b2 + d.j2))
  let s3 := min 100 (max 40 (d.b3 + d.j3))
  { clarity := s1
    confidence := s2
    articulation := s3
    feedback := reason ++ ". Your speech shows " ++ toString s1 ++ "% clarity, "
      ++ toString s2 ++ "% confidence, and " ++ toString s3 ++ "% articulation."
    suggestions := "Try speaking more clearly and with better pronunciation. Practice regularly to improve your communication skills."
    detailed :=
      { word_count := 0
        sentence_count := 0
        avg_words_per_sentence := 0
        vocabulary_diversity := 0
        speech_quality := 1/2
        filler_words := 0
        complexity_score := 0
        transcription_length := 0 } }

/-! ## Feedback and suggestion composers -/

/-- The overall-assessment sentence, chosen from five bands on the mean
score. -/
def overallSentence (overall_score : ℚ) : String :=
  if 85 ≤ overall_score then
    "Excellent communication skills! Your speech demonstrates high proficiency across all areas."
  else if 75 ≤ overall_score then
    "Very good communication skills. You show strong abilities with room for refinement."
  else if 65 ≤ overall_score then
    "Good communication skills. You have a solid foundation to build upon."
  else if 55 ≤ overall_score then
    "Developing communication skills. Focus on the areas mentioned below for improvement."
  else
    "Communication skills need development. Practice the suggested areas to improve."

/-- The clarity sentence, chosen from three bands. -/
def claritySentence (clarity_score : ℤ) : String :=
  if 80 ≤ clarity_score then
    "Your speech is very clear and easy to understand. Words are well-pronounced and your message comes across effectively."
  else if 60 ≤ clarity_score then
    "Your speech is generally clear, though some words could be more distinct. Focus on enunciation for better clarity."
  else
    "Your speech clarity needs improvement. Try speaking more slowly and focusing on pronouncing each word clearly."

/-- The confidence sentence, chosen from three bands. -/
def confidenceSentence (confidence_score : ℤ) : String :=
  if 80 ≤ confidence_score then
    "You speak with strong confidence and assurance. Your tone is assertive and your message is delivered with conviction."
  else if 60 ≤ confidence_score then
    "You show moderate confidence in your speech. While you convey your message, adding more assertiveness would strengthen your delivery."
  else
    "Your confidence level could be improved. Try to speak with more conviction and use more definitive language."

/-- The articulation sentence, chosen from three bands. -/
def articulationSentence (articulation_score : ℤ) : String :=
  if 80 ≤ articulation_score then
    "You articulate your thoughts exceptionally well. Your ideas are well-organized and expressed with precision."
  else if 60 ≤ articulation_score then
    "Your articulation is good, but could be more precise. Work on organizing your thoughts more coherently."
  else
    "Your articulation needs improvement. Focus on structuring your thoughts and expressing them more clearly."

/-- The ordered list of feedback sentences assembled by
`_generate_enhanced_feedback`. -/
def feedbackParts (clarity_score confidence_score articulation_score : ℤ)
    (sa : SpeechAnalysis) : List String :=
  [overallSentence (((clarity_score + confidence_score + articulation_score : ℤ) : ℚ) / 3),
   claritySentence clarity_score,
   confidenceSentence confidence_score,
   articulationSentence articulation_score]
  ++ (if 3 < sa.filler_word_count then
        ["You used " ++ toString sa.filler_word_count
          ++ " filler words, which can distract from your message."]
      else [])
  ++ (if 7/10 < sa.complexity_score then
        ["You demonstrate good sentence complexity, showing advanced communication skills."]
      else if sa.complexity_score < 3/10 then
        ["Your sentences tend to be simple. Try using more complex sentence structures to express sophisticated ideas."]
      else [])
  ++ (if 4/5 < sa.flow_score then
        ["Excellent speech flow and rhythm. Your delivery is smooth and engaging."]
      else if sa.flow_score < 1/2 then
        ["Your speech flow could be improved. Work on connecting ideas more smoothly."]
      else [])

/-- `TranscriptionService._generate_enhanced_feedback` (the
`transcription` argument is unused by the source body). -/
def generateEnhancedFeedback (clarity_score confidence_score articulation_score : ℤ)
    (transcription : String) (sa : SpeechAnalysis) : String :=
  joinWith " " (feedbackParts clarity_score confidence_score articulation_score sa)

/-- `TranscriptionService._generate_enhanced_suggestions`. -/
def generateEnhancedSuggestions (clarity_score confidence_score articulation_score : ℤ)
    (sa : SpeechAnalysis) : String :=
  let parts : List String :=
    (if clarity_score < 70 then
      ["🎯 **Clarity Improvement:**",
       "• Practice speaking 20% slower than your normal pace",
       "• Record yourself reading a paragraph and analyze unclear words",
       "• Focus on mouth movements and tongue placement for difficult sounds",
       "• Use tongue twisters daily to improve diction"]
     else [])
    ++ (if confidence_score < 70 then
      ["💪 **Confidence Building:**",
       "• Practice power poses before speaking",
       "• Start with smaller groups and gradually increase audience size",
       "• Use positive affirmations and visualize successful speaking",
       "• Replace hesitant language with assertive statements"]
     else [])
    ++ (if articulation_score < 70 then
      ["🗣️ **Articulation Enhancement:**",
       "• Outline key points before speaking",
       "• Practice the PREP method: Point, Reason, Example, Point",
       "• Read aloud daily to improve thought organization",
       "• Learn and use 5 new vocabulary words each week"]
     else [])
    ++ (if 5 < sa.filler_word_count then
      ["🚫 **Reduce Filler Words:**",
       "• Practice pausing instead of using \x27um\x27, \x27uh\x27, \x27like\x27",
       "• Record yourself and count filler words",
       "• Use the \x27chunking\x27 technique: group words into meaningful phrases"]
     else [])
    ++ (if sa.complexity_score < 2/5 then
      ["📚 **Sentence Complexity:**",
       "• Practice combining simple sentences with conjunctions",
       "• Use subordinate clauses to add depth to your statements",
       "• Study complex sentence structures in professional writing"]
     else [])
    ++ (if sa.flow_score < 3/5 then
      ["🌊 **Improve Speech Flow:**",
       "• Use transition words between ideas",
       "• Practice speaking in a rhythmic, natural pattern",
       "• Avoid long pauses that break the flow of your message"]
     else [])
    ++ (if 80 ≤ clarity_score ∧ 80 ≤ confidence_score ∧ 80 ≤ articulation_score then
      ["🌟 **Advanced Development:**",
       "• Practice impromptu speaking on complex topics",
       "• Study rhetorical devices and persuasive techniques",
       "• Consider joining Toastmasters or similar speaking groups",
       "• Work on vocal variety and emotional expression"]
     else [])
    ++ ["📈 **Daily Practice:**",
        "• Set aside 15 minutes daily for focused speaking practice",
        "• Use a mirror to observe facial expressions and body language",
        "• Listen to professional speakers and analyze their techniques",
        "• Seek feedback from others and track your progress over time"]
  joinWith "\n" parts

/-! ## The analyzer and the text-evaluation boundary -/

/-- The random draws consumed by one call of
`_analyze_communication_skills`: the fallback generator's six draws and
the three `_add_natural_variation` draws (clarity, confidence,
articulation, in call order). -/
structure Draws where
  fb : FallbackDraws
  vClarity : ℤ
  vConfidence : ℤ
  vArticulation : ℤ
  deriving DecidableEq, Repr

/-- The main (non-fallback) path of `_analyze_communication_skills`. -/
def analyzeMain (transcription : String) (d : Draws) : AnalysisResult :=
  let words := wordsOf transcription.data
  let word_count := words.length
  let sentence_count := (sentSplit transcription.data).length - 1
  let avg_words_per_sentence : ℚ := (word_count : ℚ) / (max sentence_count 1 : ℕ)
  let vocab_diversity := vocabularyDiversity words
  let sa := analyzeSpeechPatterns transcription words word_count
  let clarity0 := calculateEnhancedClarityScore transcription word_count avg_words_per_sentence sa
  let confidence0 := calculateEnhancedConfidenceScore transcription sa
  let articulation0 := calculateEnhancedArticulationScore transcription word_count vocab_diversity sa
  let clarity1 := addNaturalVariation clarity0 word_count d.vClarity
  let confidence1 := addNaturalVariation confidence0 word_count d.vConfidence
  let articulation1 := addNaturalVariation articulation0 word_count d.vArticulation
  { clarity := clarity1
    confidence := confidence1
    articulation := articulation1
    feedback := generateEnhancedFeedback clarity1 confidence1 articulation1 transcription sa
    suggestions := generateEnhancedSuggestions clarity1 confidence1 articulation1 sa
    detailed :=
      { word_count := word_count
        sentence_count := sentence_count
        avg_words_per_sentence := pyRoundTo avg_words_per_sentence 1
        vocabulary_diversity := pyRoundTo vocab_diversity 2
        speech_quality := sa.quality_rating
        filler_words := sa.filler_word_count
        complexity_score := sa.complexity_score
        transcription_length := transcription.data.length } }

/-- The fallback reason used for empty/too-short transcripts. -/
def tooShortReason : String := "No speech detected or transcription too short"

/-- `TranscriptionService._analyze_communication_skills`. -/
def analyzeCommunicationSkills (transcription : String) (d : Draws) : AnalysisResult :=
  if transcription = "" ∨ (pyStripWS transcription.data).length < 10 then
    generateRandomEvaluation tooShortReason d.fb
  else analyzeMain transcription d

/-- `TranscriptionService.evaluate_text_only`, parameterised over the
analysis computation so that a Python exception raised inside the `try`
block is representable as an `Except.error`. -/
def evaluateTextOnlyWith (analyze : String → Except String AnalysisResult)
    (input : String) : TranscriptionEvaluationOutput :=
  let transcription : String := ⟨pyStripWS input.data⟩
  if transcription = "" then
    { transcription := "No text provided for evaluation."
      clarity := 0
      confidence := 0
      articulation := 0
      feedback := "Please provide some text to evaluate your communication skills."
      suggestions := "Try speaking for at least 3-5 seconds and then click stop recording."
      analysis := AnalysisInfo.errorInfo "Empty transcription" }
  else
    match analyze transcription with
    | Except.ok r =>
      { transcription := transcription
        clarity := r.clarity
        confidence := r.confidence
        articulation := r.articulation
        feedback := r.feedback
        suggestions := r.suggestions
        analysis := AnalysisInfo.detailed r.detailed }
    | Except.error e =>
      { transcription := "Error evaluating text. Please try again."
        clarity := 50
        confidence := 50
        articulation := 50
        feedback := "There was an error analyzing your text. Please try again."
        suggestions := "Try recording your speech again."
        analysis := AnalysisInfo.errorInfo e }

/-- `evaluate_text_only` with the analysis it actually performs (which,
in this embedding, is total). -/
def evaluateTextOnly (d : Draws) (input : String) : TranscriptionEvaluationOutput :=
  evaluateTextOnlyWith (fun t => Except.ok (analyzeCommunicationSkills t d)) input

/-! ## Further definitions used by the claim statements -/

/-- A fixed all-zero draw bundle, used for closed counterexample
evaluations (the counterexamples do not depend on the draws). -/
def zeroDraws : Draws := ⟨⟨0, 0, 0, 0, 0, 0⟩, 0, 0, 0⟩

/-- The five overall-assessment band sentences of
`_generate_enhanced_feedback`. -/
def overallBandSentences : List String :=
  ["Excellent communication skills! Your speech demonstrates high proficiency across all areas.",
   "Very good communication skills. You show strong abilities with room for refinement.",
   "Good communication skills. You have a solid foundation to build upon.",
   "Developing communication skills. Focus on the areas mentioned below for improvement.",
   "Communication skills need development. Practice the suggested areas to improve."]

/-- The three clarity band sentences. -/
def clarityBandSentences : List String :=
  ["Your speech is very clear and easy to understand. Words are well-pronounced and your message comes across effectively.",
   "Your speech is generally clear, though some words could be more distinct. Focus on enunciation for better clarity.",
   "Your speech clarity needs improvement. Try speaking more slowly and focusing on pronouncing each word clearly."]

/-- The three confidence band sentences. -/
def confidenceBandSentences : List String :=
  ["You speak with strong confidence and assurance. Your tone is assertive and your message is delivered with conviction.",
   "You show moderate confidence in your speech. While you convey your message, adding more assertiveness would strengthen your delivery.",
   "Your confidence level could be improved. Try to speak with more conviction and use more definitive language."]

/-- The three articulation band sentences. -/
def articulationBandSentences : List String :=
  ["You articulate your thoughts exceptionally well. Your ideas are well-organized and expressed with precision.",
   "Your articulation is good, but could be more precise. Work on organizing your thoughts more coherently.",
   "Your articulation needs improvement. Focus on structuring your thoughts and expressing them more clearly."]

/-- The scenario transcript of the specification's testable-properties
section. -/
def scenarioTranscript : String :=
  "Hello my name is John and I like programming. I am confident and excited about this opportunity."

/-- Modelled from the spec: `strip` of only the trailing punctuation
characters, as the spec's description of vocabulary diversity reads
("stripping trailing punctuation"); for comparison with the source's
two-sided `pyStripPunct`. -/
def pyStripTrailingPunct (s : List Char) : List Char :=
  (s.reverse.dropWhile (punctChars.contains ·)).reverse

/-- Modelled from the spec: vocabulary diversity computed with the
trailing-only strip described by the spec's words. -/
def vocabularyDiversityTrailingOnly (words : List (List Char)) : ℚ :=
  if words = [] then 0
  else ((words.map (fun w => pyStripTrailingPunct (w.map Char.toLower))).dedup.length : ℚ) / words.length

/-! ## Bound lemmas for the extracted features -/

lemma natCast_div_le_one (a b : ℕ) (h : a ≤ b) : (a : ℚ) / (b : ℚ) ≤ 1 := by
  rcases Nat.eq_zero_or_pos b with hb | hb
  · subst hb; simp at h; simp [h]
  · rw [div_le_one (by exact_mod_cast hb)]; exact_mod_cast h

lemma complexityScore_nonneg (t : String) : 0 ≤ complexityScore t := by
  simp only [complexityScore]
  split_ifs with h
  · norm_num
  · positivity

lemma complexityScore_le_one (t : String) : complexityScore t ≤ 1 := by
  simp only [complexityScore]
  split_ifs with h
  · norm_num
  · exact natCast_div_le_one _ _ (List.length_filter_le _ _)

lemma flowScore_nonneg (t : String) : 0 ≤ flowScore t := by
  simp only [flowScore]
  split_ifs with h
  · norm_num
  · have := natCast_div_le_one ((sentencesOf t).filter (fun s => (wordsOf s).length < 5)).length
      (sentencesOf t).length (List.length_filter_le _ _)
    linarith

lemma flowScore_le_one (t : String) : flowScore t ≤ 1 := by
  simp only [flowScore]
  split_ifs with h
  · norm_num
  · have : (0:ℚ) ≤ (((sentencesOf t).filter (fun s => (wordsOf s).length < 5)).length : ℚ)
      / ((sentencesOf t).length : ℚ) := by positivity
    linarith

lemma qualityRating_nonneg (t : String) (wc : ℕ) : 0 ≤ qualityRating t wc := by
  have h1 : min ((fillerWordCount t : ℚ) / 10) (1/2) ≤ 1/2 := min_le_right _ _
  have h2 : (0:ℚ) ≤ min (complexityScore t) 1 := le_min (complexityScore_nonneg t) (by norm_num)
  have h3 := flowScore_nonneg t
  have h4 : (0:ℚ) ≤ min ((wc : ℚ) / 50) 1 := le_min (by positivity) (by norm_num)
  simp only [qualityRating]
  linarith

lemma qualityRating_le_one (t : String) (wc : ℕ) : qualityRating t wc ≤ 1 := by
  have h1 : (0:ℚ) ≤ min ((fillerWordCount t : ℚ) / 10) (1/2) := le_min (by positivity) (by norm_num)
  have h2 : min (complexityScore t) 1 ≤ 1 := min_le_right _ _
  have h3 := flowScore_le_one t
  have h4 : min ((wc : ℚ) / 50) 1 ≤ 1 := min_le_right _ _
  simp only [qualityRating]
  linarith

lemma vocabularyDiversity_nonneg (words : List (List Char)) :
    0 ≤ vocabularyDiversity words := by
  simp only [vocabularyDiversity]
  split_ifs with h
  · norm_num
  · positivity

lemma vocabularyDiversity_le_one (words : List (List Char)) :
    vocabularyDiversity words ≤ 1 := by
  simp only [vocabularyDiversity]
  split_ifs with h
  · norm_num
  · refine natCast_div_le_one _ _ ?_
    calc (words.map (fun w => pyStripPunct (w.map Char.toLower))).dedup.length
        ≤ (words.map (fun w => pyStripPunct (w.map Char.toLower))).length :=
          (List.dedup_sublist _).length_le
      _ = words.length := List.length_map _ _

lemma ratFloor_eq_intFloor (q : ℚ) : q.floor = ⌊q⌋ := by
  rw [Rat.floor_def', Rat.floor_def]

lemma pyTrunc_nonneg (q : ℚ) (h : 0 ≤ q) : 0 ≤ pyTrunc q := by
  simp only [pyTrunc, if_pos h, ratFloor_eq_intFloor]
  exact Int.floor_nonneg.mpr h

/-! ## Claim theorems -/

/-- C3: for every transcript and every feature set derived from it
(the `analyzeSpeechPatterns` output together with any derived word count,
average sentence length, and vocabulary diversity), the pre-jitter
enhanced scores satisfy `0 ≤ clarity ≤ 100`, `0 ≤ articulation ≤ 100`,
and `30 ≤ confidence ≤ 100`; for clarity the lower bound holds even
though the source applies only an upper clamp. -/
theorem c3_pre_jitter_score_bounds (t : String) (words : List (List Char))
    (word_count : ℕ) (avg vd : ℚ) :
    (0 ≤ calculateEnhancedClarityScore t word_count avg (analyzeSpeechPatterns t words word_count)
      ∧ calculateEnhancedClarityScore t word_count avg (analyzeSpeechPatterns t words word_count) ≤ 100)
    ∧ (0 ≤ calculateEnhancedArticulationScore t word_count vd (analyzeSpeechPatterns t words word_count)
      ∧ calculateEnhancedArticulationScore t word_count vd (analyzeSpeechPatterns t words word_count) ≤ 100)
    ∧ (30 ≤ calculateEnhancedConfidenceScore t (analyzeSpeechPatterns t words word_count)
      ∧ calculateEnhancedConfidenceScore t (analyzeSpeechPatterns t words word_count) ≤ 100) := by
  refine ⟨?_, ?_, ?_⟩
  · have hq : 0 ≤ pyTrunc ((analyzeSpeechPatterns t words word_count).quality_rating * 10) := by
      refine pyTrunc_nonneg _ ?_
      have : (analyzeSpeechPatterns t words word_count).quality_rating = qualityRating t word_count := rfl
      rw [this]
      exact mul_nonneg (qualityRating_nonneg t word_count) (by norm_num)
    have hA : (0:ℤ) ≤ (if 8 ≤ avg ∧ avg ≤ 18 then 12 else if 5 ≤ avg ∧ avg ≤ 25 then 6 else 0) := by
      split_ifs <;> norm_num
    simp only [calculateEnhancedClarityScore]
    constructor
    · split_ifs at hA ⊢ <;> omega
    · omega
  · simp only [calculateEnhancedArticulationScore]
    constructor
    · split_ifs <;> omega
    · split_ifs <;> omega
  · simp only [calculateEnhancedConfidenceScore]
    omega

/-- C9: for every transcript, the computed feature set has all its
ratio-type fields in `[0,1]` (vocabulary diversity, complexity score,
flow score, and the speech-quality rating, the mean of its four
components), and all its count fields are non-negative. -/
theorem c9_feature_set_invariant (t : String) :
    (0 ≤ vocabularyDiversity (wordsOf t.data) ∧ vocabularyDiversity (wordsOf t.data) ≤ 1)
    ∧ (0 ≤ (analyzeSpeechPatterns t (wordsOf t.data) (wordsOf t.data).length).complexity_score
      ∧ (analyzeSpeechPatterns t (wordsOf t.data) (wordsOf t.data).length).complexity_score ≤ 1)
    ∧ (0 ≤ (analyzeSpeechPatterns t (wordsOf t.data) (wordsOf t.data).length).flow_score
      ∧ (analyzeSpeechPatterns t (wordsOf t.data) (wordsOf t.data).length).flow_score ≤ 1)
    ∧ (0 ≤ (analyzeSpeechPatterns t (wordsOf t.data) (wordsOf t.data).length).quality_rating
      ∧ (analyzeSpeechPatterns t (wordsOf t.data) (wordsOf t.data).length).quality_rating ≤ 1)
    ∧ 0 ≤ (wordsOf t.data).length
    ∧ 0 ≤ (sentSplit t.data).length - 1
    ∧ 0 ≤ (analyzeSpeechPatterns t (wordsOf t.data) (wordsOf t.data).length).filler_word_count
    ∧ 0 ≤ (analyzeSpeechPatterns t (wordsOf t.data) (wordsOf t.data).length).formal_language_count := by
  exact ⟨⟨vocabularyDiversity_nonneg _, vocabularyDiversity_le_one _⟩,
    ⟨complexityScore_nonneg t, complexityScore_le_one t⟩,
    ⟨flowScore_nonneg t, flowScore_le_one t⟩,
    ⟨qualityRating_nonneg t _, qualityRating_le_one t _⟩,
    Nat.zero_le _, Nat.zero_le _, Nat.zero_le _, Nat.zero_le _⟩

/-! ## String helper lemmas -/

lemma data_append (a b : String) : (a ++ b).data = a.data ++ b.data := by
  cases a; cases b; rfl

lemma leadsWith_refl (p : List Char) : leadsWith p p = true := by
  induction p with
  | nil => rfl
  | cons c cs ih => simp [leadsWith, ih]

lemma leadsWith_append_right (p t u : List Char) (h : leadsWith p t = true) :
    leadsWith p (t ++ u) = true := by
  induction p generalizing t with
  | nil => rfl
  | cons c cs ih =>
    cases t with
    | nil => simp [leadsWith] at h
    | cons x xs =>
      simp only [leadsWith, Bool.and_eq_true, decide_eq_true_eq] at h
      simp only [List.cons_append, leadsWith, Bool.and_eq_true, decide_eq_true_eq]
      exact ⟨h.1, ih xs h.2⟩

lemma pyStripWS_length_le (l : List Char) : (pyStripWS l).length ≤ l.length := by
  simp only [pyStripWS]
  rw [List.length_reverse]
  calc ((l.dropWhile Char.isWhitespace).reverse.dropWhile Char.isWhitespace).length
      ≤ (l.dropWhile Char.isWhitespace).reverse.length := (List.dropWhile_sublist _).length_le
    _ = (l.dropWhile Char.isWhitespace).length := List.length_reverse _
    _ ≤ l.length := (List.dropWhile_sublist _).length_le

/-- The fallback feedback text begins with the failure reason. -/
lemma generateRandomEvaluation_feedback_starts (reason : String) (fb : FallbackDraws) :
    leadsWith reason.data (generateRandomEvaluation reason fb).feedback.data = true := by
  simp only [generateRandomEvaluation]
  simp only [data_append]
  apply leadsWith_append_right
  apply leadsWith_append_right
  apply leadsWith_append_right
  apply leadsWith_append_right
  apply leadsWith_append_right
  apply leadsWith_append_right
  apply leadsWith_append_right
  exact leadsWith_refl _

/-- C4: the variation injector returns `score + jitter` clamped to
`[40,100]`, for any jitter within `[-v, +v]`, `v = clamp(word_count //
10, 5, 15)`; in particular the post-jitter score always lies in
`[40,100]`. -/
theorem c4_variation_injector (base_score : ℤ) (word_count : ℕ) (variation : ℤ)
    (h1 : -variationRange word_count ≤ variation)
    (h2 : variation ≤ variationRange word_count) :
    addNaturalVariation base_score word_count variation
        = max 40 (min 100 (base_score + variation))
    ∧ 40 ≤ addNaturalVariation base_score word_count variation
    ∧ addNaturalVariation base_score word_count variation ≤ 100 := by
  simp only [addNaturalVariation]
  omega

/-- Witness for C4 at `base_score = 70`, `word_count = 100`,
`variation = 10` (so `v = 10`). -/
theorem c4_variation_injector_witness :
    addNaturalVariation 70 100 10 = max 40 (min 100 (70 + 10))
    ∧ 40 ≤ addNaturalVariation 70 100 10
    ∧ addNaturalVariation 70 100 10 ≤ 100 :=
  c4_variation_injector 70 100 10 (by decide) (by decide)

/-- C10: with the fallback generator's base draws in `[65,85]` and
jitter draws in `[-10,10]`, each generated score equals `base + jitter`
and lies in `[55,95]`, so the surrounding clamp to `[40,100]` never
changes the value. -/
theorem c10_fallback_scores_tight (reason : String) (d : FallbackDraws)
    (hb1 : 65 ≤ d.b1) (hb1u : d.b1 ≤ 85) (hj1 : -10 ≤ d.j1) (hj1u : d.j1 ≤ 10)
    (hb2 : 65 ≤ d.b2) (hb2u : d.b2 ≤ 85) (hj2 : -10 ≤ d.j2) (hj2u : d.j2 ≤ 10)
    (hb3 : 65 ≤ d.b3) (hb3u : d.b3 ≤ 85) (hj3 : -10 ≤ d.j3) (hj3u : d.j3 ≤ 10) :
    ((generateRandomEvaluation reason d).clarity = d.b1 + d.j1
      ∧ 55 ≤ (generateRandomEvaluation reason d).clarity
      ∧ (generateRandomEvaluation reason d).clarity ≤ 95)
    ∧ ((generateRandomEvaluation reason d).confidence = d.b2 + d.j2
      ∧ 55 ≤ (generateRandomEvaluation reason d).confidence
      ∧ (generateRandomEvaluation reason d).confidence ≤ 95)
    ∧ ((generateRandomEvaluation reason d).articulation = d.b3 + d.j3
      ∧ 55 ≤ (generateRandomEvaluation reason d).articulation
      ∧ (generateRandomEvaluation reason d).articulation ≤ 95) := by
  have e1 : (generateRandomEvaluation reason d).clarity = min 100 (max 40 (d.b1 + d.j1)) := rfl
  have e2 : (generateRandomEvaluation reason d).confidence = min 100 (max 40 (d.b2 + d.j2)) := rfl
  have e3 : (generateRandomEvaluation reason d).articulation = min 100 (max 40 (d.b3 + d.j3)) := rfl
  rw [e1, e2, e3]
  omega

/-- Witness for C10 at concrete draws `(70, 80, 65, 5, -10, 10)`. -/
theorem c10_fallback_scores_tight_witness :
    ((generateRandomEvaluation "r" ⟨70, 80, 65, 5, -10, 10⟩).clarity = 70 + 5
      ∧ 55 ≤ (generateRandomEvaluation "r" ⟨70, 80, 65, 5, -10, 10⟩).clarity
      ∧ (generateRandomEvaluation "r" ⟨70, 80, 65, 5, -10, 10⟩).clarity ≤ 95)
    ∧ ((generateRandomEvaluation "r" ⟨70, 80, 65, 5, -10, 10⟩).confidence = 80 + -10
      ∧ 55 ≤ (generateRandomEvaluation "r" ⟨70, 80, 65, 5, -10, 10⟩).confidence
      ∧ (generateRandomEvaluation "r" ⟨70, 80, 65, 5, -10, 10⟩).confidence ≤ 95)
    ∧ ((generateRandomEvaluation "r" ⟨70, 80, 65, 5, -10, 10⟩).articulation = 65 + 10
      ∧ 55 ≤ (generateRandomEvaluation "r" ⟨70, 80, 65, 5, -10, 10⟩).articulation
      ∧ (generateRandomEvaluation "r" ⟨70, 80, 65, 5, -10, 10⟩).articulation ≤ 95) :=
  c10_fallback_scores_tight "r" ⟨70, 80, 65, 5, -10, 10⟩
    (by decide) (by decide) (by decide) (by decide) (by decide) (by decide)
    (by decide) (by decide) (by decide) (by decide) (by decide) (by decide)

/-- C1: `evaluate_text_only` is total by construction in this embedding,
and any fault of the analysis computation (modelled as an
`Except.error` of the analysis function) on a non-empty stripped input
is caught at the evaluate boundary and converted to the fixed degraded
record with clarity = confidence = articulation = 50 and the generic
apology feedback. -/
theorem c1_evaluate_boundary_catches_faults
    (analyze : String → Except String AnalysisResult) (input e : String)
    (hne : (⟨pyStripWS input.data⟩ : String) ≠ "")
    (herr : analyze ⟨pyStripWS input.data⟩ = Except.error e) :
    evaluateTextOnlyWith analyze input =
      { transcription := "Error evaluating text. Please try again."
        clarity := 50
        confidence := 50
        articulation := 50
        feedback := "There was an error analyzing your text. Please try again."
        suggestions := "Try recording your speech again."
        analysis := AnalysisInfo.errorInfo e } := by
  simp only [evaluateTextOnlyWith, if_neg hne, herr]

/-- Witness for C1 at input `"hello world"` with an analysis function
that always faults. -/
theorem c1_evaluate_boundary_catches_faults_witness :
    evaluateTextOnlyWith (fun _ => Except.error "boom") "hello world" =
      { transcription := "Error evaluating text. Please try again."
        clarity := 50
        confidence := 50
        articulation := 50
        feedback := "There was an error analyzing your text. Please try again."
        suggestions := "Try recording your speech again."
        analysis := AnalysisInfo.errorInfo "boom" } :=
  c1_evaluate_boundary_catches_faults (fun _ => Except.error "boom") "hello world" "boom"
    (by decide) rfl

/-- Counterexample to C2 as stated: on the empty transcript,
`evaluate_text_only` does not take the fallback-generator path; it
returns the fixed zero-score "No text provided" record, whose clarity 0
is outside `[40,100]` and whose feedback does not begin with
"No speech detected or transcription too short". -/
theorem c2_empty_transcript_counterexample :
    (evaluateTextOnly zeroDraws "").clarity = 0
    ∧ ¬ (40 ≤ (evaluateTextOnly zeroDraws "").clarity)
    ∧ leadsWith tooShortReason.data (evaluateTextOnly zeroDraws "").feedback.data = false
    ∧ (evaluateTextOnly zeroDraws "").feedback
        = "Please provide some text to evaluate your communication skills." := by
  refine ⟨rfl, by decide, by decide, rfl⟩

/-- C2 (amended): for every transcript whose stripped form is non-empty
and shorter than 10 characters, the result of `evaluate_text_only` comes
from the fallback generator: all three scores lie in `[40,100]` and the
feedback begins with "No speech detected or transcription too short".
(The empty or whitespace-only transcript instead yields the fixed
zero-score "No text provided" record, per the counterexample.) -/
theorem c2_short_transcript_fallback (input : String) (d : Draws)
    (h1 : pyStripWS input.data ≠ [])
    (h2 : (pyStripWS input.data).length < 10) :
    (40 ≤ (evaluateTextOnly d input).clarity ∧ (evaluateTextOnly d input).clarity ≤ 100)
    ∧ (40 ≤ (evaluateTextOnly d input).confidence ∧ (evaluateTextOnly d input).confidence ≤ 100)
    ∧ (40 ≤ (evaluateTextOnly d input).articulation ∧ (evaluateTextOnly d input).articulation ≤ 100)
    ∧ leadsWith tooShortReason.data (evaluateTextOnly d input).feedback.data = true := by
  have hne : (⟨pyStripWS input.data⟩ : String) ≠ "" := by
    intro hc
    exact h1 (congrArg String.data hc)
  have hguard : (⟨pyStripWS input.data⟩ : String) = ""
      ∨ (pyStripWS ((⟨pyStripWS input.data⟩ : String)).data).length < 10 :=
    Or.inr (lt_of_le_of_lt (pyStripWS_length_le (pyStripWS input.data)) h2)
  have hres : evaluateTextOnly d input =
      { transcription := (⟨pyStripWS input.data⟩ : String)
        clarity := (generateRandomEvaluation tooShortReason d.fb).clarity
        confidence := (generateRandomEvaluation tooShortReason d.fb).confidence
        articulation := (generateRandomEvaluation tooShortReason d.fb).articulation
        feedback := (generateRandomEvaluation tooShortReason d.fb).feedback
        suggestions := (generateRandomEvaluation tooShortReason d.fb).suggestions
        analysis := AnalysisInfo.detailed (generateRandomEvaluation tooShortReason d.fb).detailed } := by
    simp only [evaluateTextOnly, evaluateTextOnlyWith, if_neg hne,
      analyzeCommunicationSkills, if_pos hguard]
  have p1 : (evaluateTextOnly d input).clarity = min 100 (max 40 (d.fb.b1 + d.fb.j1)) := by
    rw [hres]; rfl
  have p2 : (evaluateTextOnly d input).confidence = min 100 (max 40 (d.fb.b2 + d.fb.j2)) := by
    rw [hres]; rfl
  have p3 : (evaluateTextOnly d input).articulation = min 100 (max 40 (d.fb.b3 + d.fb.j3)) := by
    rw [hres]; rfl
  have p4 : (evaluateTextOnly d input).feedback
      = (generateRandomEvaluation tooShortReason d.fb).feedback := by
    rw [hres]
  refine ⟨?_, ?_, ?_, ?_⟩
  · rw [p1]; omega
  · rw [p2]; omega
  · rw [p3]; omega
  · rw [p4]; exact generateRandomEvaluation_feedback_starts tooShortReason d.fb

/-- Witness for C2 at the transcript `"hi"`. -/
theorem c2_short_transcript_fallback_witness :
    (40 ≤ (evaluateTextOnly zeroDraws "hi").clarity
      ∧ (evaluateTextOnly zeroDraws "hi").clarity ≤ 100)
    ∧ (40 ≤ (evaluateTextOnly zeroDraws "hi").confidence
      ∧ (evaluateTextOnly zeroDraws "hi").confidence ≤ 100)
    ∧ (40 ≤ (evaluateTextOnly zeroDraws "hi").articulation
      ∧ (evaluateTextOnly zeroDraws "hi").articulation ≤ 100)
    ∧ leadsWith tooShortReason.data (evaluateTextOnly zeroDraws "hi").feedback.data = true :=
  c2_short_transcript_fallback "hi" zeroDraws (by decide) (by decide)

/-- Counterexample to C5 as stated: at filler counts where the penalty
caps (`min(15, 2f)` for clarity at `f ≥ 8`, `min(20, 3f)` for confidence
at `f ≥ 7`), adding one more filler word leaves the pre-jitter score
unchanged even though the score is still strictly above its clamp floor
(45 > 0 for clarity, 35 > 30 for confidence). -/
theorem c5_filler_monotonicity_counterexample :
    calculateEnhancedClarityScore "" 0 0 ⟨9, 0, 0, 0, false, false, 0⟩
        = calculateEnhancedClarityScore "" 0 0 ⟨8, 0, 0, 0, false, false, 0⟩
    ∧ calculateEnhancedClarityScore "" 0 0 ⟨8, 0, 0, 0, false, false, 0⟩ = 45
    ∧ calculateEnhancedConfidenceScore "" ⟨8, 0, 0, 0, false, false, 0⟩
        = calculateEnhancedConfidenceScore "" ⟨7, 0, 0, 0, false, false, 0⟩
    ∧ calculateEnhancedConfidenceScore "" ⟨7, 0, 0, 0, false, false, 0⟩ = 35 :=
  ⟨by decide, by decide, by decide, by decide⟩

/-- C5 (amended): increasing `filler_word_count` by one, holding the
transcript and every other feature (including the quality rating) fixed,
strictly decreases the pre-jitter clarity score as long as the clarity
filler penalty has not reached its cap (`2·filler < 15`) and the score is
below the upper clamp, and strictly decreases the pre-jitter confidence
score as long as its penalty has not reached its cap (`3·filler < 20`)
and the score is strictly between its clamp floor 30 and 100. -/
theorem c5_filler_monotonicity_amended (t : String) (word_count : ℕ) (avg : ℚ)
    (sa : SpeechAnalysis) :
    (2 * (sa.filler_word_count : ℤ) < 15 →
      calculateEnhancedClarityScore t word_count avg sa < 100 →
      calculateEnhancedClarityScore t word_count avg
          { sa with filler_word_count := sa.filler_word_count + 1 }
        < calculateEnhancedClarityScore t word_count avg sa)
    ∧ (3 * (sa.filler_word_count : ℤ) < 20 →
      30 < calculateEnhancedConfidenceScore t sa →
      calculateEnhancedConfidenceScore t sa < 100 →
      calculateEnhancedConfidenceScore t
          { sa with filler_word_count := sa.filler_word_count + 1 }
        < calculateEnhancedConfidenceScore t sa) := by
  constructor
  · intro hcap hlt
    simp only [calculateEnhancedClarityScore] at hlt ⊢
    push_cast
    omega
  · intro hcap hgt hlt
    simp only [calculateEnhancedConfidenceScore] at hgt hlt ⊢
    push_cast
    omega

/-- Witness for C5 at the all-zero feature set (clarity 60, confidence
55, both strictly inside their clamp ranges). -/
theorem c5_filler_monotonicity_amended_witness :
    calculateEnhancedClarityScore "" 0 0
        { (⟨0, 0, 0, 0, false, false, 0⟩ : SpeechAnalysis) with filler_word_count := 0 + 1 }
      < calculateEnhancedClarityScore "" 0 0 ⟨0, 0, 0, 0, false, false, 0⟩
    ∧ calculateEnhancedConfidenceScore ""
        { (⟨0, 0, 0, 0, false, false, 0⟩ : SpeechAnalysis) with filler_word_count := 0 + 1 }
      < calculateEnhancedConfidenceScore "" ⟨0, 0, 0, 0, false, false, 0⟩ := by
  have h := c5_filler_monotonicity_amended "" 0 0 ⟨0, 0, 0, 0, false, false, 0⟩
  exact ⟨h.1 (by decide) (by decide), h.2 (by decide) (by decide) (by decide)⟩

/-- The legacy confidence score is in fact never below 47: its base is
at least 65 and its only penalty is at most 3 per hesitation marker
present, over a list of 6 markers. -/
lemma legacy_confidence_lower_bound (t : String) (kw : ℕ) :
    47 ≤ calculateConfidenceScoreLegacy t kw := by
  have hp : presenceCount legacyHesitationWords (lowerData t) ≤ 6 :=
    le_trans (List.length_filter_le _ _) (by decide)
  simp only [calculateConfidenceScoreLegacy, presenceCount] at *
  omega

/-- Counterexample to C6's claim that the legacy confidence calculator
falls below 30 for some input: it never does, being bounded below by
47. -/
theorem c6_legacy_below_30_counterexample :
    ¬ ∃ (t : String) (kw : ℕ), calculateConfidenceScoreLegacy t kw < 30 := by
  rintro ⟨t, kw, h⟩
  have := legacy_confidence_lower_bound t kw
  omega

/-- C6 (amended): the enhanced confidence calculator's result lies in
`[30,100]` for every input; the legacy calculator's result lies in
`[0,100]` but never falls below 47 (so it never reaches the clamp floor
0, let alone 30); the two implementations are nevertheless not
extensionally equal, differing already on a transcript with no lexical
markers ("zzzzzzzzzzzz": enhanced 55, legacy 65). -/
theorem c6_confidence_bounds_divergence :
    (∀ (t : String) (sa : SpeechAnalysis),
      30 ≤ calculateEnhancedConfidenceScore t sa
        ∧ calculateEnhancedConfidenceScore t sa ≤ 100)
    ∧ (∀ (t : String) (kw : ℕ),
      0 ≤ calculateConfidenceScoreLegacy t kw
        ∧ calculateConfidenceScoreLegacy t kw ≤ 100
        ∧ 47 ≤ calculateConfidenceScoreLegacy t kw)
    ∧ calculateEnhancedConfidenceScore "zzzzzzzzzzzz"
        (analyzeSpeechPatterns "zzzzzzzzzzzz" (wordsOf ("zzzzzzzzzzzz" : String).data)
          (wordsOf ("zzzzzzzzzzzz" : String).data).length)
      ≠ calculateConfidenceScoreLegacy "zzzzzzzzzzzz" (keywordCount "zzzzzzzzzzzz") := by
  refine ⟨?_, ?_, by decide⟩
  · intro t sa
    simp only [calculateEnhancedConfidenceScore]
    omega
  · intro t kw
    have h47 := legacy_confidence_lower_bound t kw
    have h100 : calculateConfidenceScoreLegacy t kw ≤ 100 := by
      simp only [calculateConfidenceScoreLegacy]
      omega
    exact ⟨by omega, h100, h47⟩

/-! ## Substring lemmas for the feedback composer -/

lemma hasSub_nil_pattern (u : List Char) : hasSub [] u = true := by
  cases u <;> simp [hasSub, leadsWith]

lemma hasSub_of_leadsWith (p t : List Char) (h : leadsWith p t = true) :
    hasSub p t = true := by
  cases t with
  | nil => exact h
  | cons c cs => simp [hasSub, h]

lemma hasSub_self (p : List Char) : hasSub p p = true :=
  hasSub_of_leadsWith _ _ (leadsWith_refl p)

lemma hasSub_append_left (p t u : List Char) (h : hasSub p t = true) :
    hasSub p (t ++ u) = true := by
  induction t with
  | nil =>
    cases p with
    | nil => exact hasSub_nil_pattern u
    | cons q qs => simp [hasSub, leadsWith] at h
  | cons c cs ih =>
    simp only [hasSub, Bool.or_eq_true] at h
    rcases h with h | h
    · exact hasSub_of_leadsWith _ _ (leadsWith_append_right _ _ _ h)
    · simp only [List.cons_append, hasSub, Bool.or_eq_true]
      exact Or.inr (ih h)

lemma hasSub_append_of_right (p t u : List Char) (h : hasSub p u = true) :
    hasSub p (t ++ u) = true := by
  induction t with
  | nil => exact h
  | cons c cs ih =>
    simp only [List.cons_append, hasSub, Bool.or_eq_true]
    exact Or.inr ih

/-- Every member of a joined list occurs as a substring of the join. -/
lemma hasSub_joinWith_of_mem (sep : String) (xs : List String) (x : String)
    (hx : x ∈ xs) : hasSub x.data (joinWith sep xs).data = true := by
  induction xs with
  | nil => cases hx
  | cons y ys ih =>
    rcases List.mem_cons.mp hx with rfl | hx'
    · cases ys with
      | nil => exact hasSub_self x.data
      | cons z zs =>
        simp only [joinWith, data_append]
        exact hasSub_append_left _ _ _ (hasSub_append_left _ _ _ (hasSub_self x.data))
    · cases ys with
      | nil => cases hx'
      | cons z zs =>
        simp only [joinWith, data_append]
        exact hasSub_append_of_right _ _ _ (ih hx')

lemma overallSentence_mem (q : ℚ) : overallSentence q ∈ overallBandSentences := by
  simp only [overallSentence, overallBandSentences]
  split_ifs <;> simp

lemma claritySentence_mem (c : ℤ) : claritySentence c ∈ clarityBandSentences := by
  simp only [claritySentence, clarityBandSentences]
  split_ifs <;> simp

lemma confidenceSentence_mem (k : ℤ) : confidenceSentence k ∈ confidenceBandSentences := by
  simp only [confidenceSentence, confidenceBandSentences]
  split_ifs <;> simp

lemma articulationSentence_mem (a : ℤ) :
    articulationSentence a ∈ articulationBandSentences := by
  simp only [articulationSentence, articulationBandSentences]
  split_ifs <;> simp

/-- The feedback composed by `_generate_enhanced_feedback` always
contains one sentence from each of the overall, clarity, confidence and
articulation bands, whatever the scores and features. -/
lemma feedback_contains_band_sentences (c k a : ℤ) (t : String) (sa : SpeechAnalysis) :
    (∃ s ∈ overallBandSentences,
      hasSub s.data (generateEnhancedFeedback c k a t sa).data = true)
    ∧ (∃ s ∈ clarityBandSentences,
      hasSub s.data (generateEnhancedFeedback c k a t sa).data = true)
    ∧ (∃ s ∈ confidenceBandSentences,
      hasSub s.data (generateEnhancedFeedback c k a t sa).data = true)
    ∧ (∃ s ∈ articulationBandSentences,
      hasSub s.data (generateEnhancedFeedback c k a t sa).data = true) := by
  refine ⟨⟨overallSentence (((c + k + a : ℤ) : ℚ) / 3), overallSentence_mem _, ?_⟩,
    ⟨claritySentence c, claritySentence_mem c, ?_⟩,
    ⟨confidenceSentence k, confidenceSentence_mem k, ?_⟩,
    ⟨articulationSentence a, articulationSentence_mem a, ?_⟩⟩
  all_goals
    apply hasSub_joinWith_of_mem
    simp [feedbackParts]

/-- The analyzer's main path emits feedback containing one sentence from
each band. -/
lemma analyzeMain_feedback_bands (t : String) (d : Draws) :
    (∃ s ∈ overallBandSentences,
      hasSub s.data (analyzeMain t d).feedback.data = true)
    ∧ (∃ s ∈ clarityBandSentences,
      hasSub s.data (analyzeMain t d).feedback.data = true)
    ∧ (∃ s ∈ confidenceBandSentences,
      hasSub s.data (analyzeMain t d).feedback.data = true)
    ∧ (∃ s ∈ articulationBandSentences,
      hasSub s.data (analyzeMain t d).feedback.data = true) := by
  have h := feedback_contains_band_sentences
    (addNaturalVariation (calculateEnhancedClarityScore t (wordsOf t.data).length
        (((wordsOf t.data).length : ℚ) / ((max ((sentSplit t.data).length - 1) 1 : ℕ) : ℚ))
        (analyzeSpeechPatterns t (wordsOf t.data) (wordsOf t.data).length))
      (wordsOf t.data).length d.vClarity)
    (addNaturalVariation (calculateEnhancedConfidenceScore t
        (analyzeSpeechPatterns t (wordsOf t.data) (wordsOf t.data).length))
      (wordsOf t.data).length d.vConfidence)
    (addNaturalVariation (calculateEnhancedArticulationScore t (wordsOf t.data).length
        (vocabularyDiversity (wordsOf t.data))
        (analyzeSpeechPatterns t (wordsOf t.data) (wordsOf t.data).length))
      (wordsOf t.data).length d.vArticulation)
    t
    (analyzeSpeechPatterns t (wordsOf t.data) (wordsOf t.data).length)
  exact h

/-- Counterexample to C7 as stated: the scenario transcript splits into
17 whitespace-separated words, not 16. -/
theorem c7_scenario_word_count_counterexample :
    (wordsOf scenarioTranscript.data).length = 17
    ∧ ¬ (wordsOf scenarioTranscript.data).length = 16 :=
  ⟨by decide, by decide⟩

/-- C7 (amended): for the scenario transcript, the feature extractor
yields word_count = 17 (the claim's 16 is off by one), sentence_count =
2, and filler_word_count = 1 (the single hit "like"); and for every
draw bundle the generated feedback includes at least one sentence from
each of the overall, clarity, confidence and articulation bands. -/
theorem c7_scenario_features_and_feedback (d : Draws) :
    (wordsOf scenarioTranscript.data).length = 17
    ∧ (sentSplit scenarioTranscript.data).length - 1 = 2
    ∧ fillerWordCount scenarioTranscript = 1
    ∧ (∃ s ∈ overallBandSentences,
      hasSub s.data (analyzeCommunicationSkills scenarioTranscript d).feedback.data = true)
    ∧ (∃ s ∈ clarityBandSentences,
      hasSub s.data (analyzeCommunicationSkills scenarioTranscript d).feedback.data = true)
    ∧ (∃ s ∈ confidenceBandSentences,
      hasSub s.data (analyzeCommunicationSkills scenarioTranscript d).feedback.data = true)
    ∧ (∃ s ∈ articulationBandSentences,
      hasSub s.data (analyzeCommunicationSkills scenarioTranscript d).feedback.data = true) := by
  have hguard : ¬ (scenarioTranscript = ""
      ∨ (pyStripWS scenarioTranscript.data).length < 10) := by decide
  have heq : analyzeCommunicationSkills scenarioTranscript d
      = analyzeMain scenarioTranscript d := by
    simp only [analyzeCommunicationSkills, if_neg hguard]
  rw [heq]
  have hb := analyzeMain_feedback_bands scenarioTranscript d
  exact ⟨by decide, by decide, by decide, hb.1, hb.2.1, hb.2.2.1, hb.2.2.2⟩

/-- Counterexample to C8 as stated: on the transcript ".foo foo" the
source's two-sided strip identifies ".foo" with "foo" (diversity 1/2),
while the claim's trailing-only strip would keep them distinct
(diversity 1). -/
theorem c8_strip_side_counterexample :
    vocabularyDiversity (wordsOf (".foo foo" : String).data) = 1/2
    ∧ vocabularyDiversityTrailingOnly (wordsOf (".foo foo" : String).data) = 1
    ∧ vocabularyDiversity (wordsOf (".foo foo" : String).data)
        ≠ vocabularyDiversityTrailingOnly (wordsOf (".foo foo" : String).data) :=
  ⟨by decide, by decide, by decide⟩

/-- C8 (amended): for every transcript, `vocabulary_diversity` equals
the number of distinct forms obtained by lowercasing each
whitespace-separated word and stripping the punctuation characters
`.,!?;:"` from both ends (leading and trailing), divided by the word
count, and 0 when there are no words. -/
theorem c8_vocabulary_diversity_both_ends (t : String) :
    vocabularyDiversity (wordsOf t.data)
      = if (wordsOf t.data).length = 0 then 0
        else (((wordsOf t.data).map
            (fun w => pyStripPunct (w.map Char.toLower))).toFinset.card : ℚ)
          / ((wordsOf t.data).length : ℚ) := by
  simp only [vocabularyDiversity]
  by_cases h : wordsOf t.data = []
  · rw [if_pos h, if_pos (by simp [h])]
  · rw [if_neg h, if_neg (by simpa [List.length_eq_zero] using h), List.card_toFinset]

end StudyBuddy
